import Mathlib

/-!
Shallow embedding of the phishing-detection backend (backend/src/app.py):
the credential rotator (KeyManager), the local weighted keyword scanner
(local_keyword_scan), the CSV keyword loader (load_keywords), and the
classification endpoint (classify_email) with its AI attempt loop.

Strings are modelled by Lean `String`; Python `str.lower` by characterwise
`Char.toLower`; Python substring containment (`a in b`) by a boolean
contiguous-sublist check on the character lists; Python dicts by association
lists; floats (the confidence values 0.8 / 0.5 / 0.4) by `ℚ`.

The remote AI backend is out of scope per the spec and is modelled as an
oracle mapping (api key, sender, text) to either a parsed JSON payload or
an error message string.  The keyword CSV file is likewise modelled as a
list of read events (rows with optional fields, or a read failure).
-/

namespace PhishingApp

/-- Characterwise lowercasing, modelling Python `str.lower()`. -/
def lowerStr (s : String) : String := ⟨s.data.map Char.toLower⟩

/-- Boolean test that `needle` occurs as a contiguous sublist of `haystack`. -/
def substrB : List Char → List Char → Bool
  | needle, [] => needle.isEmpty
  | needle, hs@(_ :: t) => needle.isPrefixOf hs || substrB needle t

/-- Python's `needle in haystack` on strings (contiguous substring test). -/
def containsSub (haystack needle : String) : Bool := substrB needle.data haystack.data

/-- Strip leading and trailing whitespace from a character list,
modelling Python `str.strip()`. -/
def stripChars (l : List Char) : List Char :=
  ((l.dropWhile Char.isWhitespace).reverse.dropWhile Char.isWhitespace).reverse

/-- Python `str.strip()`. -/
def stripStr (s : String) : String := ⟨stripChars s.data⟩

/-- The JSON body returned to the caller: app.py's
`{"label": ..., "reason": ..., "confidence": ...}` shape.  The fields are
deliberately unconstrained (any string / any rational), because the code
itself never validates them. -/
structure ClassificationResult where
  label : String
  reason : String
  confidence : ℚ
deriving DecidableEq

/-- app.py lines 17-29: the credential rotator.  `keys` is the startup list
`API_KEYS`; `current_index` starts at 0. -/
structure KeyManager where
  keys : List String
  current_index : Nat
deriving DecidableEq

/-- app.py lines 26-28: `self.current_index = (self.current_index + 1) % len(self.keys)`. -/
def KeyManager.rotate (km : KeyManager) : KeyManager :=
  { km with current_index := (km.current_index + 1) % km.keys.length }

/-- app.py lines 58-70: the literal `weights` dict of `local_keyword_scan`. -/
def weights : List (String × Nat) :=
  [("Urgency", 5), ("Financial", 4), ("Crypto", 5), ("Government", 5),
   ("Security/Account", 3), ("IT/Admin", 3), ("Workplace", 2), ("Legal", 4),
   ("E-commerce", 2), ("Generic/Suspicious", 2), ("Social", 1)]

/-- app.py line 74: `weights.get(category, 1)` — dictionary lookup with
default 1 for unknown categories. -/
def weightOf (category : String) : Nat :=
  match weights.find? (fun p => p.1 == category) with
  | some p => p.2
  | none => 1

/-- Python `", ".join(strings)`. -/
def joinComma : List String → String
  | [] => ""
  | [c] => c
  | c :: rest => c ++ ", " ++ joinComma rest

/-- app.py lines 52-95: `local_keyword_scan(text)`.  The module-level
`PHISHING_KEYWORDS` dict (phrase → category) is passed explicitly as
`corpus`.  The Python `set` of matched categories is modelled as the
deduplicated list of categories of matching phrases. -/
def local_keyword_scan (corpus : List (String × String)) (text : String) :
    ClassificationResult :=
  let text_lower := lowerStr text
  let matched := corpus.filter (fun p => containsSub text_lower (lowerStr p.1))
  let total_risk_score := (matched.map (fun p => weightOf p.2)).sum
  let found_categories := (matched.map (fun p => p.2)).dedup
  if total_risk_score ≥ 5 then
    { label := "phishing"
      reason := "High risk detected. Matches themes: " ++ joinComma found_categories ++ "."
      confidence := 0.8 }
  else if total_risk_score ≥ 2 then
    { label := "suspicious"
      reason := "Caution: Found " ++ joinComma found_categories ++ " related phrases."
      confidence := 0.5 }
  else
    { label := "safe"
      reason := "No high-risk phishing signatures detected in the text."
      confidence := 0.4 }

/-- app.py lines 147-148: a failure is treated as a rate limit when the
lowercased message contains "429" or "rate_limit_exceeded". -/
def isRateLimit (err_msg : String) : Bool :=
  containsSub (lowerStr err_msg) "429" || containsSub (lowerStr err_msg) "rate_limit_exceeded"

/-- One call to the remote AI backend either yields a parsed JSON payload
(app.py line 144, `json.loads` of the model's message) or raises, carrying
an error message (`str(e)`). -/
inductive BackendOutcome where
  | success (payload : ClassificationResult)
  | failure (err_msg : String)
deriving DecidableEq

/-- Whether an outcome is a rate-limit failure (the branch of app.py line 148). -/
def BackendOutcome.rateLimited : BackendOutcome → Bool
  | .success _ => false
  | .failure e => isRateLimit e

/-- Observable trace of the attempt loop of app.py lines 131-155: the AI
result if any, the key manager state afterwards, the number of backend
calls made, and the number of `rotate()` calls performed. -/
structure LoopTrace where
  result : Option ClassificationResult
  km : KeyManager
  calls : Nat
  rotations : Nat
deriving DecidableEq

/-- app.py lines 131-155: `for attempt in range(len(API_KEYS))`.  Each
iteration calls the backend with the key at the current index; on success
it returns the parsed payload immediately; on a rate-limit failure it
rotates and continues; on any other failure it breaks (no AI result).
The first argument is the backend oracle, a function of (key, sender, text). -/
def attemptLoop (backend : String → String → String → BackendOutcome)
    (sender text : String) : Nat → KeyManager → LoopTrace
  | 0, km => ⟨none, km, 0, 0⟩
  | n + 1, km =>
    match backend (km.keys.getD km.current_index "") sender text with
    | .success payload => ⟨some payload, km, 1, 0⟩
    | .failure e =>
      if isRateLimit e then
        let t := attemptLoop backend sender text n km.rotate
        ⟨t.result, t.km, t.calls + 1, t.rotations + 1⟩
      else ⟨none, km, 1, 0⟩

/-- Python `data.get(key, dflt)` on the request's JSON object, modelled as
an association list with string values. -/
def jsonGet (data : List (String × String)) (key dflt : String) : String :=
  match data.find? (fun p => p.1 == key) with
  | some p => p.2
  | none => dflt

/-- The two HTTP outcomes of app.py's `classify_email`: a 200 response
carrying a result body, or the 400 `{"error": "No data provided"}` response. -/
inductive HttpResponse where
  | ok (body : ClassificationResult)
  | clientError (error : String)
deriving DecidableEq

/-- Whether a response is a 200 success response. -/
def HttpResponse.isOk : HttpResponse → Bool
  | .ok _ => true
  | .clientError _ => false

/-- app.py lines 122-163: the `/api/classify` handler.  `data` is
`request.get_json()` (`none` when no payload).  Python's `if not data`
is true both for `None` and for the empty dict, hence the `d.isEmpty`
branch.  Returns the HTTP outcome together with the key manager state
after the request (the rotator is process-wide mutable state). -/
def classify_email (backend : String → String → String → BackendOutcome)
    (corpus : List (String × String)) (km : KeyManager)
    (data : Option (List (String × String))) : HttpResponse × KeyManager :=
  match data with
  | none => (HttpResponse.clientError "No data provided", km)
  | some d =>
    if d.isEmpty then (HttpResponse.clientError "No data provided", km)
    else
      let sender := jsonGet d "sender_email" "Unknown"
      let email_text := jsonGet d "text" ""
      let t := attemptLoop backend sender email_text km.keys.length km
      match t.result with
      | some r => (HttpResponse.ok r, t.km)
      | none => (HttpResponse.ok (local_keyword_scan corpus email_text), t.km)

/-- One event while reading the keyword CSV (app.py lines 34-49): either a
parsed row (`row.get('Keyword')` / `row.get('Category')`, each possibly
absent) or an exception raised by the file read / CSV iteration. -/
inductive CsvEvent where
  | row (keyword category : Option String)
  | readError (msg : String)
deriving DecidableEq

/-- Python truthiness test `if kw and cat` on the two optional row fields. -/
def CsvEvent.goodRow : CsvEvent → Bool
  | CsvEvent.row (some k) (some c) => !(k == "") && !(c == "")
  | _ => false

/-- Python dict assignment `d[k] = v`: replace the binding if the key is
present, otherwise append it. -/
def insertAssoc (m : List (String × String)) (k v : String) : List (String × String) :=
  if m.any (fun p => p.1 == k) then m.map (fun p => if p.1 == k then (k, v) else p)
  else m ++ [(k, v)]

/-- The row loop of app.py lines 40-45, with the `except` clause of lines
47-48: an exception stops iteration and the accumulated dict so far is
returned (the `try` does not reset `keywords`). -/
def load_keywords_loop (acc : List (String × String)) :
    List CsvEvent → List (String × String)
  | [] => acc
  | CsvEvent.readError _ :: _ => acc
  | CsvEvent.row kw cat :: rest =>
    match kw, cat with
    | some k, some c =>
      if k ≠ "" ∧ c ≠ "" then
        load_keywords_loop (insertAssoc acc (lowerStr (stripStr k)) (stripStr c)) rest
      else load_keywords_loop acc rest
    | _, _ => load_keywords_loop acc rest

/-- app.py lines 34-49: `load_keywords()`, starting from the empty dict and
consuming the stream of read events. -/
def load_keywords (events : List CsvEvent) : List (String × String) :=
  load_keywords_loop [] events

/-- A concrete backend oracle that rate-limits every call, for use in
closed instances of the theorems below. -/
def rlBackend : String → String → String → BackendOutcome :=
  fun _ _ _ => BackendOutcome.failure "Error code: 429 - rate_limit_exceeded"

/-- A concrete backend oracle that fails every call with a non-rate-limit
error, for use in closed instances of the theorems below. -/
def downBackend : String → String → String → BackendOutcome :=
  fun _ _ _ => BackendOutcome.failure "connection refused"

/-- The category-weight table exactly as the spec lists it (§4.2), written
as a total function with an explicit default arm, to be compared with the
code's dictionary lookup `weightOf`. -/
def specWeight (c : String) : Nat :=
  if c = "Urgency" then 5
  else if c = "Financial" then 4
  else if c = "Crypto" then 5
  else if c = "Government" then 5
  else if c = "Security/Account" then 3
  else if c = "IT/Admin" then 3
  else if c = "Workplace" then 2
  else if c = "Legal" then 4
  else if c = "E-commerce" then 2
  else if c = "Generic/Suspicious" then 2
  else if c = "Social" then 1
  else 1

/-- The accumulated total the spec describes (§4.2 step 2): the sum, over
corpus phrases that are substrings of the lowercased text, of the spec's
weight of the phrase's category. -/
def specTotal (corpus : List (String × String)) (text : String) : Nat :=
  ((corpus.filter (fun p => containsSub (lowerStr text) (lowerStr p.1))).map
    (fun p => specWeight p.2)).sum

end PhishingApp

namespace PhishingApp

theorem rotate_keys (km : KeyManager) : km.rotate.keys = km.keys := rfl

theorem rotate_iterate_keys (km : KeyManager) :
    ∀ n, (KeyManager.rotate^[n] km).keys = km.keys := by
  intro n
  induction n with
  | zero => rfl
  | succ n ih => rw [Function.iterate_succ_apply', rotate_keys, ih]

theorem rotate_iterate_index (km : KeyManager)
    (hi : km.current_index < km.keys.length) :
    ∀ n, (KeyManager.rotate^[n] km).current_index =
      (km.current_index + n) % km.keys.length := by
  intro n
  induction n with
  | zero => simpa using (Nat.mod_eq_of_lt hi).symm
  | succ n ih =>
    rw [Function.iterate_succ_apply']
    simp only [KeyManager.rotate, rotate_iterate_keys, ih, Nat.mod_add_mod]
    rw [Nat.add_assoc]

theorem attemptLoop_allRateLimited (backend : String → String → String → BackendOutcome)
    (senderv textv : String)
    (h : ∀ k : String, (backend k senderv textv).rateLimited = true) :
    ∀ (n : Nat) (km : KeyManager),
      attemptLoop backend senderv textv n km =
        ⟨none, KeyManager.rotate^[n] km, n, n⟩ := by
  intro n
  induction n with
  | zero => intro km; rfl
  | succ n ih =>
    intro km
    have hk := h (km.keys.getD km.current_index "")
    rw [attemptLoop]
    cases hb : backend (km.keys.getD km.current_index "") senderv textv with
    | success p => rw [hb] at hk; simp [BackendOutcome.rateLimited] at hk
    | failure e =>
      rw [hb] at hk
      simp only [BackendOutcome.rateLimited] at hk
      simp only [hk, if_true, ih km.rotate]
      rw [Function.iterate_succ_apply]

theorem attemptLoop_firstFailureNotRL (backend : String → String → String → BackendOutcome)
    (senderv textv : String) (n : Nat) (km : KeyManager) (e : String)
    (hb : backend (km.keys.getD km.current_index "") senderv textv = .failure e)
    (hrl : isRateLimit e = false) :
    attemptLoop backend senderv textv (n + 1) km = ⟨none, km, 1, 0⟩ := by
  rw [attemptLoop, hb]
  simp [hrl]

end PhishingApp

namespace PhishingApp

theorem weightOf_eq_specWeight (c : String) : weightOf c = specWeight c := by
  by_cases h1 : c = "Urgency"
  · subst h1; decide
  by_cases h2 : c = "Financial"
  · subst h2; decide
  by_cases h3 : c = "Crypto"
  · subst h3; decide
  by_cases h4 : c = "Government"
  · subst h4; decide
  by_cases h5 : c = "Security/Account"
  · subst h5; decide
  by_cases h6 : c = "IT/Admin"
  · subst h6; decide
  by_cases h7 : c = "Workplace"
  · subst h7; decide
  by_cases h8 : c = "Legal"
  · subst h8; decide
  by_cases h9 : c = "E-commerce"
  · subst h9; decide
  by_cases h10 : c = "Generic/Suspicious"
  · subst h10; decide
  by_cases h11 : c = "Social"
  · subst h11; decide
  have hn : weights.find? (fun p => p.1 == c) = none := by
    apply List.find?_eq_none.mpr
    intro x hx
    simp only [weights, List.mem_cons, List.not_mem_nil, or_false] at hx
    rcases hx with h | h | h | h | h | h | h | h | h | h | h <;>
      (subst h; simp only [beq_iff_eq]; intro he; subst he; simp_all)
  rw [weightOf, hn]
  simp [specWeight, h1, h2, h3, h4, h5, h6, h7, h8, h9, h10, h11]

theorem substrB_nil_false (needle : List Char) (h : needle ≠ []) :
    substrB needle [] = false := by
  cases needle with
  | nil => exact absurd rfl h
  | cons a l => rfl

end PhishingApp

namespace PhishingApp

/-- C3: for every input text and corpus, the local scan accumulates, over
each corpus phrase that is a substring of the lowercased text, the weight
of the phrase's category per the fixed table (with unknown categories
weighing 1), and labels the result phishing (confidence 0.8) when the
total is at least 5, suspicious (confidence 0.5) when it is at least 2 and
below 5, and safe (confidence 0.4) otherwise. -/
theorem scan_matches_spec_thresholds (corpus : List (String × String)) (text : String) :
    (local_keyword_scan corpus text).label =
      (if 5 ≤ specTotal corpus text then "phishing"
       else if 2 ≤ specTotal corpus text then "suspicious" else "safe") ∧
    (local_keyword_scan corpus text).confidence =
      (if 5 ≤ specTotal corpus text then (0.8 : ℚ)
       else if 2 ≤ specTotal corpus text then (0.5 : ℚ) else (0.4 : ℚ)) := by
  simp only [local_keyword_scan, specTotal, weightOf_eq_specWeight, ge_iff_le]
  split_ifs <;> simp

/-- C6 (amended): every fallback-produced ClassificationResult has a label
in the enumerated set and a confidence in the closed interval from 0 to 1.
(The AI path returns the backend's parsed payload verbatim, without
validation — see the counterexample.) -/
theorem scan_result_wellFormed (corpus : List (String × String)) (text : String) :
    ((local_keyword_scan corpus text).label = "phishing" ∨
     (local_keyword_scan corpus text).label = "suspicious" ∨
     (local_keyword_scan corpus text).label = "safe") ∧
    0 ≤ (local_keyword_scan corpus text).confidence ∧
    (local_keyword_scan corpus text).confidence ≤ 1 := by
  simp only [local_keyword_scan]
  split_ifs <;> refine ⟨by simp, by norm_num, by norm_num⟩

/-- C6 counterexample: a backend that succeeds with the payload
label "banana", confidence 7 has that payload passed through verbatim by
classify_email, so the response body is neither in the enumerated label
set nor within the confidence interval. -/
theorem ai_payload_passed_through_unvalidated :
    (classify_email (fun _ _ _ => BackendOutcome.success ⟨"banana", "model output", 7⟩)
        [] (KeyManager.mk ["key1"] 0) (some [("text", "hi")])).1 =
      HttpResponse.ok ⟨"banana", "model output", 7⟩ ∧
    ¬("banana" = "phishing" ∨ "banana" = "suspicious" ∨ "banana" = "safe") ∧
    ¬((7 : ℚ) ≤ 1) := by
  refine ⟨rfl, by decide, by norm_num⟩

/-- C8: scanning the empty string yields label safe with confidence 0.4,
for every corpus whose phrases are non-empty strings. -/
theorem scan_empty_text_safe (corpus : List (String × String))
    (h : ∀ p ∈ corpus, p.1 ≠ "") :
    local_keyword_scan corpus "" =
      ⟨"safe", "No high-risk phishing signatures detected in the text.", 0.4⟩ := by
  have hfil : corpus.filter (fun p => containsSub (lowerStr "") (lowerStr p.1)) = [] := by
    apply List.filter_eq_nil_iff.mpr
    intro p hp
    have hp1 : p.1.data ≠ [] := fun hd => (h p hp) (String.ext hd)
    have hl : (lowerStr p.1).data ≠ [] := by
      simp only [lowerStr]
      simpa using hp1
    simp only [containsSub]
    rw [show (lowerStr "").data = [] from rfl, substrB_nil_false _ hl]
    simp
  simp only [local_keyword_scan, hfil, List.map_nil, List.sum_nil, List.dedup_nil]
  norm_num

/-- Witness for scan_empty_text_safe at a concrete one-phrase corpus. -/
theorem scan_empty_text_safe_witness :
    (("urgent action required", "Urgency") : String × String).1 ≠ "" ∧
    local_keyword_scan [("urgent action required", "Urgency")] "" =
      ⟨"safe", "No high-risk phishing signatures detected in the text.", 0.4⟩ :=
  ⟨by decide, scan_empty_text_safe [("urgent action required", "Urgency")]
    (by intro p hp; simp only [List.mem_singleton] at hp; subst hp; decide)⟩

end PhishingApp

namespace PhishingApp

theorem load_keywords_loop_no_good_row (events : List CsvEvent) :
    (∀ e ∈ events, e.goodRow = false) →
    ∀ acc, load_keywords_loop acc events = acc := by
  induction events with
  | nil => intro _ acc; rfl
  | cons e rest ih =>
    intro h acc
    have he := h e (List.mem_cons_self e rest)
    have hrest := fun e' he' => h e' (List.mem_cons_of_mem e he')
    cases e with
    | readError m => rfl
    | row kw cat =>
      cases kw with
      | none => exact ih hrest acc
      | some k =>
        cases cat with
        | none => exact ih hrest acc
        | some c =>
          simp only [CsvEvent.goodRow, Bool.and_eq_false_iff, Bool.not_eq_false',
            beq_iff_eq] at he
          have hcond : ¬(k ≠ "" ∧ c ≠ "") := by tauto
          simp only [load_keywords_loop, if_neg hcond]
          exact ih hrest acc

/-- C9 (amended): the loader is a total function (it never raises), and
whenever no event of the read stream is a well-formed row — the source is
unreadable from the start, or every row is malformed — the resulting
corpus is empty.  A read failure occurring after well-formed rows,
however, leaves the partially-loaded corpus (see the counterexample). -/
theorem load_keywords_empty_of_no_good_row (events : List CsvEvent)
    (h : ∀ e ∈ events, e.goodRow = false) :
    load_keywords events = [] :=
  load_keywords_loop_no_good_row events h []

/-- Witness for load_keywords_empty_of_no_good_row: a stream with a
malformed row (missing category) followed by a read error loads nothing. -/
theorem load_keywords_empty_of_no_good_row_witness :
    (∀ e ∈ [CsvEvent.row (some "free money") none, CsvEvent.readError "io error"],
      e.goodRow = false) ∧
    load_keywords [CsvEvent.row (some "free money") none, CsvEvent.readError "io error"] = [] :=
  ⟨by decide, load_keywords_empty_of_no_good_row
    [CsvEvent.row (some "free money") none, CsvEvent.readError "io error"] (by decide)⟩

/-- C9 counterexample: a read failure that occurs after one well-formed
row was processed leaves a non-empty, partially-loaded corpus — the
except clause of app.py lines 47-48 returns the dict accumulated so far
rather than substituting an empty one. -/
theorem load_keywords_partial_after_midstream_failure :
    load_keywords [CsvEvent.row (some "free money") (some "Urgency"),
                   CsvEvent.readError "mid-file decode error"] =
      [("free money", "Urgency")] ∧
    load_keywords [CsvEvent.row (some "free money") (some "Urgency"),
                   CsvEvent.readError "mid-file decode error"] ≠ [] := by
  refine ⟨by decide, by decide⟩

/-- C7: for every non-empty credential list of length L and every valid
starting index, L consecutive rotations return the active index to its
starting value, and every intermediate index stays below L. -/
theorem rotate_wraparound (km : KeyManager)
    (hi : km.current_index < km.keys.length) :
    (KeyManager.rotate^[km.keys.length] km).current_index = km.current_index ∧
    ∀ j, j ≤ km.keys.length →
      (KeyManager.rotate^[j] km).current_index < km.keys.length := by
  have hL : 0 < km.keys.length := lt_of_le_of_lt (Nat.zero_le _) hi
  constructor
  · rw [rotate_iterate_index km hi, Nat.add_mod_right, Nat.mod_eq_of_lt hi]
  · intro j _
    rw [rotate_iterate_index km hi]
    exact Nat.mod_lt _ hL

/-- Witness for rotate_wraparound on a three-key manager starting at index 1. -/
theorem rotate_wraparound_witness :
    (KeyManager.mk ["k0", "k1", "k2"] 1).current_index <
      (KeyManager.mk ["k0", "k1", "k2"] 1).keys.length ∧
    (KeyManager.rotate^[(KeyManager.mk ["k0", "k1", "k2"] 1).keys.length]
      (KeyManager.mk ["k0", "k1", "k2"] 1)).current_index = 1 ∧
    (KeyManager.rotate^[2] (KeyManager.mk ["k0", "k1", "k2"] 1)).current_index < 3 :=
  ⟨by decide, (rotate_wraparound (KeyManager.mk ["k0", "k1", "k2"] 1) (by decide)).1,
    (rotate_wraparound (KeyManager.mk ["k0", "k1", "k2"] 1) (by decide)).2 2 (by decide)⟩

end PhishingApp

namespace PhishingApp

/-- C1 (amended): for every request payload that is a non-empty JSON
object, classify_email returns a success response whatever the backend
does (no AI-path failure is visible to the caller); a missing payload
yields the client-error outcome — and so does an empty-object payload,
which Python's `if not data` treats like a missing one (see the
counterexample). -/
theorem classify_success_on_nonempty_payload
    (backend : String → String → String → BackendOutcome)
    (corpus : List (String × String)) (km : KeyManager)
    (d : List (String × String)) (hd : d.isEmpty = false) :
    ((classify_email backend corpus km (some d)).1).isOk = true ∧
    (classify_email backend corpus km none).1 =
      HttpResponse.clientError "No data provided" := by
  constructor
  · simp only [classify_email, hd, Bool.false_eq_true, if_false]
    cases hres : (attemptLoop backend (jsonGet d "sender_email" "Unknown")
        (jsonGet d "text" "") km.keys.length km).result with
    | some r => simp [hres, HttpResponse.isOk]
    | none => simp [hres, HttpResponse.isOk]
  · rfl

/-- Witness for classify_success_on_nonempty_payload at a concrete
payload, backend and key manager. -/
theorem classify_success_on_nonempty_payload_witness :
    ([("text", "hello")] : List (String × String)).isEmpty = false ∧
    ((classify_email downBackend [] (KeyManager.mk ["key1"] 0)
        (some [("text", "hello")])).1).isOk = true ∧
    (classify_email downBackend [] (KeyManager.mk ["key1"] 0) none).1 =
      HttpResponse.clientError "No data provided" :=
  ⟨rfl, (classify_success_on_nonempty_payload downBackend [] (KeyManager.mk ["key1"] 0)
      [("text", "hello")] rfl).1,
    (classify_success_on_nonempty_payload downBackend [] (KeyManager.mk ["key1"] 0)
      [("text", "hello")] rfl).2⟩

/-- C1 counterexample: the empty object is a syntactically valid JSON
payload (sender may be absent, text may be empty per the spec), yet
classify_email answers it with the 400 client-error response, because
Python's `if not data` is true for the empty dict. -/
theorem classify_empty_object_client_error :
    classify_email downBackend [] (KeyManager.mk ["key1"] 0) (some []) =
      (HttpResponse.clientError "No data provided", KeyManager.mk ["key1"] 0) := rfl

/-- C2 (amended): with an empty credential list the process does not fail
at startup and still serves classification requests — the attempt loop
makes zero backend calls and every non-empty payload is answered from the
local fallback. -/
theorem classify_empty_keys_falls_back
    (backend : String → String → String → BackendOutcome)
    (corpus : List (String × String))
    (d : List (String × String)) (hd : d.isEmpty = false) :
    (attemptLoop backend (jsonGet d "sender_email" "Unknown") (jsonGet d "text" "")
        (KeyManager.mk [] 0).keys.length (KeyManager.mk [] 0)).calls = 0 ∧
    (classify_email backend corpus (KeyManager.mk [] 0) (some d)).1 =
      HttpResponse.ok (local_keyword_scan corpus (jsonGet d "text" "")) := by
  refine ⟨rfl, ?_⟩
  simp only [classify_email, hd, Bool.false_eq_true, if_false, List.length_nil, attemptLoop]

/-- Witness for classify_empty_keys_falls_back at a concrete payload. -/
theorem classify_empty_keys_falls_back_witness :
    ([("text", "hello")] : List (String × String)).isEmpty = false ∧
    (classify_email downBackend [("urgent", "Urgency")] (KeyManager.mk [] 0)
        (some [("text", "hello")])).1 =
      HttpResponse.ok (local_keyword_scan [("urgent", "Urgency")] "hello") :=
  ⟨rfl, (classify_empty_keys_falls_back downBackend [("urgent", "Urgency")]
    [("text", "hello")] rfl).2⟩

/-- C2 counterexample: a concrete request served end-to-end with zero
credentials configured — the claim that the system never serves with an
empty credential set is false; there is no startup check at all. -/
theorem classify_serves_with_zero_credentials :
    classify_email downBackend [("urgent", "Urgency")] (KeyManager.mk [] 0)
        (some [("text", "hello")]) =
      (HttpResponse.ok
        ⟨"safe", "No high-risk phishing signatures detected in the text.", 0.4⟩,
       KeyManager.mk [] 0) := rfl

end PhishingApp

namespace PhishingApp

/-- C4: if the backend rate-limits every call, the attempt loop over a
credential list of length L makes exactly L backend calls and L
rotations, the active index returns to its starting value, no AI result
is produced, and the response to the caller is exactly the local scoring
engine's result for the request text. -/
theorem allRateLimited_exhausts_and_falls_back
    (backend : String → String → String → BackendOutcome)
    (corpus : List (String × String)) (km : KeyManager)
    (d : List (String × String))
    (hd : d.isEmpty = false)
    (hi : km.current_index < km.keys.length)
    (h : ∀ k : String, (backend k (jsonGet d "sender_email" "Unknown")
        (jsonGet d "text" "")).rateLimited = true) :
    (attemptLoop backend (jsonGet d "sender_email" "Unknown") (jsonGet d "text" "")
        km.keys.length km).calls = km.keys.length ∧
    (attemptLoop backend (jsonGet d "sender_email" "Unknown") (jsonGet d "text" "")
        km.keys.length km).rotations = km.keys.length ∧
    (attemptLoop backend (jsonGet d "sender_email" "Unknown") (jsonGet d "text" "")
        km.keys.length km).km.current_index = km.current_index ∧
    (attemptLoop backend (jsonGet d "sender_email" "Unknown") (jsonGet d "text" "")
        km.keys.length km).result = none ∧
    (classify_email backend corpus km (some d)).1 =
      HttpResponse.ok (local_keyword_scan corpus (jsonGet d "text" "")) := by
  have hloop := attemptLoop_allRateLimited backend
    (jsonGet d "sender_email" "Unknown") (jsonGet d "text" "") h km.keys.length km
  refine ⟨by rw [hloop], by rw [hloop], ?_, by rw [hloop], ?_⟩
  · rw [hloop]
    show (KeyManager.rotate^[km.keys.length] km).current_index = km.current_index
    rw [rotate_iterate_index km hi, Nat.add_mod_right, Nat.mod_eq_of_lt hi]
  · simp only [classify_email, hd, Bool.false_eq_true, if_false, hloop]

/-- Witness for allRateLimited_exhausts_and_falls_back: two credentials,
both rate-limited, on a concrete payload. -/
theorem allRateLimited_exhausts_and_falls_back_witness :
    (rlBackend "k0" "a@b.c" "verify your account").rateLimited = true ∧
    (attemptLoop rlBackend "a@b.c" "verify your account" 2
        (KeyManager.mk ["k0", "k1"] 0)).calls = 2 ∧
    (attemptLoop rlBackend "a@b.c" "verify your account" 2
        (KeyManager.mk ["k0", "k1"] 0)).rotations = 2 ∧
    (attemptLoop rlBackend "a@b.c" "verify your account" 2
        (KeyManager.mk ["k0", "k1"] 0)).km.current_index = 0 ∧
    (classify_email rlBackend [] (KeyManager.mk ["k0", "k1"] 0)
        (some [("sender_email", "a@b.c"), ("text", "verify your account")])).1 =
      HttpResponse.ok (local_keyword_scan [] "verify your account") := by
  have h := allRateLimited_exhausts_and_falls_back rlBackend []
    (KeyManager.mk ["k0", "k1"] 0)
    [("sender_email", "a@b.c"), ("text", "verify your account")]
    rfl (by decide) (fun _ => rfl)
  exact ⟨by decide, h.1, h.2.1, h.2.2.1, h.2.2.2.2⟩

/-- C5: if the backend fails with a non-rate-limit error on the first
attempt, the loop makes exactly one backend call, performs no rotation
(the key manager, hence the active index, is unchanged), yields no AI
result, and control falls through to the local fallback. -/
theorem nonRateLimit_first_failure_falls_back
    (backend : String → String → String → BackendOutcome)
    (corpus : List (String × String)) (km : KeyManager)
    (d : List (String × String)) (e : String)
    (hd : d.isEmpty = false) (hL : 0 < km.keys.length)
    (hb : backend (km.keys.getD km.current_index "")
        (jsonGet d "sender_email" "Unknown") (jsonGet d "text" "") =
      BackendOutcome.failure e)
    (hrl : isRateLimit e = false) :
    attemptLoop backend (jsonGet d "sender_email" "Unknown") (jsonGet d "text" "")
        km.keys.length km = ⟨none, km, 1, 0⟩ ∧
    (classify_email backend corpus km (some d)).1 =
      HttpResponse.ok (local_keyword_scan corpus (jsonGet d "text" "")) := by
  obtain ⟨n, hn⟩ : ∃ n, km.keys.length = n + 1 := ⟨km.keys.length - 1, by omega⟩
  have hloop := attemptLoop_firstFailureNotRL backend
    (jsonGet d "sender_email" "Unknown") (jsonGet d "text" "") n km e hb hrl
  constructor
  · rw [hn]; exact hloop
  · simp only [classify_email, hd, Bool.false_eq_true, if_false, hn, hloop]

/-- Witness for nonRateLimit_first_failure_falls_back: a backend that is
down (error "connection refused") on a two-credential manager. -/
theorem nonRateLimit_first_failure_falls_back_witness :
    isRateLimit "connection refused" = false ∧
    attemptLoop downBackend "Unknown" "hello" 2 (KeyManager.mk ["k0", "k1"] 0) =
      ⟨none, KeyManager.mk ["k0", "k1"] 0, 1, 0⟩ ∧
    (classify_email downBackend [] (KeyManager.mk ["k0", "k1"] 0)
        (some [("text", "hello")])).1 =
      HttpResponse.ok (local_keyword_scan [] "hello") := by
  have h := nonRateLimit_first_failure_falls_back downBackend []
    (KeyManager.mk ["k0", "k1"] 0) [("text", "hello")] "connection refused"
    rfl (by decide) rfl (by decide)
  exact ⟨by decide, h.1, h.2⟩

/-- C10: when the AI path produces no result for either request, the
response depends only on the request's text field — two non-empty
payloads with the same text but different sender_email values receive
identical response bodies, since the sender is never passed to the local
scan. -/
theorem fallback_independent_of_sender
    (backend : String → String → String → BackendOutcome)
    (corpus : List (String × String)) (km₁ km₂ : KeyManager)
    (d₁ d₂ : List (String × String))
    (hd₁ : d₁.isEmpty = false) (hd₂ : d₂.isEmpty = false)
    (htext : jsonGet d₁ "text" "" = jsonGet d₂ "text" "")
    (h₁ : (attemptLoop backend (jsonGet d₁ "sender_email" "Unknown")
        (jsonGet d₁ "text" "") km₁.keys.length km₁).result = none)
    (h₂ : (attemptLoop backend (jsonGet d₂ "sender_email" "Unknown")
        (jsonGet d₂ "text" "") km₂.keys.length km₂).result = none) :
    (classify_email backend corpus km₁ (some d₁)).1 =
      (classify_email backend corpus km₂ (some d₂)).1 := by
  simp only [classify_email, hd₁, hd₂, Bool.false_eq_true, if_false, h₁, h₂]
  rw [htext]

/-- Witness for fallback_independent_of_sender: same text, two different
senders, a backend that is down for every call. -/
theorem fallback_independent_of_sender_witness :
    jsonGet [("sender_email", "alice@x.com"), ("text", "hello")] "text" "" =
      jsonGet [("sender_email", "bob@y.com"), ("text", "hello")] "text" "" ∧
    (classify_email downBackend [] (KeyManager.mk ["k0"] 0)
        (some [("sender_email", "alice@x.com"), ("text", "hello")])).1 =
      (classify_email downBackend [] (KeyManager.mk ["k0"] 0)
        (some [("sender_email", "bob@y.com"), ("text", "hello")])).1 :=
  ⟨rfl, fallback_independent_of_sender downBackend [] (KeyManager.mk ["k0"] 0)
    (KeyManager.mk ["k0"] 0)
    [("sender_email", "alice@x.com"), ("text", "hello")]
    [("sender_email", "bob@y.com"), ("text", "hello")]
    rfl rfl rfl (by decide) (by decide)⟩

end PhishingApp
